import Mathlib

/-
Verification of the download-orchestration core of the `downloader` crate.

The Rust sources are shallowly embedded:

* `src/src/backend.rs` — the per-request retry/mirror loop (`download`,
  `download_url`, `select_url`) and the batch runner (`run`).
* `src/src/downloader.rs` — batch validation (`validate_downloads`) and the
  `Downloader::download` entry point.
* `src/src/lib.rs` — the earlier revision's `DownloadResult::was_success`.

External effects are made explicit:

* The HTTP client is an oracle `http : Nat → String → Option (Nat × List Nat)`
  mapping (attempt index, url) to `some (status, chunk sizes)` on a successful
  connection and `none` on a transport failure (the source then substitutes the
  BAD_REQUEST sentinel 400).
* `select_url`'s RNG is an oracle `choose : Nat → Nat`; the chosen index is
  `choose retry % urls.length`, which can realize any selection sequence.
* File-system and network side effects are recorded as an explicit `Event`
  trace (`createFile` on a successful exclusive create, `fetch` per attempt).
* `buffer_unordered` yields results in completion order; the completion
  schedule is an explicit index list `order` (a permutation of the batch's
  positions when every request is polled to completion).
-/

/-- `Verification` from `src/src/verify.rs`: tri-state verification outcome. -/
inductive Verification where
  | NotVerified
  | Failed
  | Ok
  deriving DecidableEq, Repr

/-- A `Download` request: candidate URLs and a destination path
(`src/src/lib.rs` / `downloader.rs`; the progress sink and verify callback are
supplied through the environment, their data content is irrelevant here). -/
structure Download where
  urls : List String
  file_name : String
  deriving DecidableEq, Repr

/-- `DownloadSummary` as used by `src/src/backend.rs`: attempt history,
destination and verification outcome. -/
structure DownloadSummary where
  status : List (String × Nat)
  file_name : String
  verified : Verification
  deriving DecidableEq, Repr

/-- The per-request error cases of `backend.rs::download`:
`Error::Download(summary)` (fetch never succeeded) and
`Error::Verification(summary)` (fetch succeeded, verifier said Failed). -/
inductive DownloadError where
  | download : DownloadSummary → DownloadError
  | verification : DownloadSummary → DownloadError
  deriving DecidableEq, Repr

/-- Side effects of one request, in program order: exclusive creation of the
destination file, and one network fetch per attempt. -/
inductive Event where
  | createFile : String → Event
  | fetch : String → Event
  deriving DecidableEq, Repr

/-- The environment one request runs against: HTTP oracle, RNG oracle,
whether `OpenOptions::create_new` succeeds on the destination, and the result
of the verify callback. -/
structure FetchEnv where
  http : Nat → String → Option (Nat × List Nat)
  choose : Nat → Nat
  fileCreatable : Bool
  verifyResult : Verification

/-- `reqwest::StatusCode::from_u16(s).unwrap_or(BAD_REQUEST)`: codes outside
100..999 collapse to the 400 sentinel (backend.rs line 111/121). -/
def normStatus (s : Nat) : Nat :=
  if 100 ≤ s ∧ s < 1000 then s else 400

/-- `StatusCode::is_server_error`: the 5xx class. -/
def isServerError (s : Nat) : Bool :=
  500 ≤ s && s < 600

/-- `StatusCode::is_success`: the 2xx class. -/
def isSuccess (s : Nat) : Bool :=
  200 ≤ s && s < 300

/-- Running totals reported by `download_url`'s chunk loop: after each chunk
`current += bytes.len()` the value `current` is passed to `progress`. -/
def partialSums : List Nat → Nat → List Nat
  | [], _ => []
  | b :: bs, cur => (cur + b) :: partialSums bs (cur + b)

/-- Observable behaviour of one fetch attempt: the status returned to the
retry loop, the sequence of values passed to `progress`, and the bytes
appended to the destination writer. -/
structure AttemptResult where
  status : Nat
  progressCalls : List Nat
  bytesWritten : Nat
  deriving DecidableEq, Repr

/-- `backend.rs::download_url`: on a connection, stream the chunks — writing
each and reporting the running total — and return the response status; on a
transport failure return the BAD_REQUEST sentinel 400 with no streaming.
(The source ignores `write_all` errors, so the bytes handed to the writer are
exactly the received chunks.) -/
def download_url (env : FetchEnv) (attempt : Nat) (url : String) : AttemptResult :=
  match env.http attempt url with
  | some (st, chunks) =>
      { status := st, progressCalls := partialSums chunks 0, bytesWritten := chunks.sum }
  | none => { status := 400, progressCalls := [], bytesWritten := 0 }

/-- `backend.rs::select_url`: pick a random element of the eligible list; the
RNG draw for retry number `r` is `env.choose r`, reduced mod the list length. -/
def select_url (env : FetchEnv) (retry : Nat) (urls : List String) : String :=
  (urls.get? (env.choose retry % urls.length)).getD ""

/-- The eligibility update applied after a server-error status
(backend.rs lines 126-129, identically download.rs lines 114-117): keep
exactly the elements equal to the just-attempted URL. -/
def narrowUrls (urls : List String) (url : String) : List String :=
  urls.filter (fun u => u == url)

/-- The `for retry in 1..=retries` loop of `backend.rs::download`: select a
URL, run the attempt, record `(url, status)`, narrow eligibility on a server
error (breaking if the eligible list became empty), and stop on a success
status. Returns the attempt history, the `download_successful` flag and the
event trace. -/
def retryLoop (env : FetchEnv) (remaining retry : Nat) (urls : List String)
    (acc : List (String × Nat)) (evs : List Event) :
    List (String × Nat) × Bool × List Event :=
  match remaining with
  | 0 => (acc, false, evs)
  | n + 1 =>
    let url := select_url env retry urls
    let s := normStatus (download_url env retry url).status
    let acc' := acc ++ [(url, s)]
    let evs' := evs ++ [Event.fetch url]
    let urls' := if isServerError s then narrowUrls urls url else urls
    if isServerError s && urls'.isEmpty then (acc', false, evs')
    else if isSuccess s then (acc', true, evs')
    else retryLoop env n (retry + 1) urls' acc' evs'

/-- `backend.rs::download`: exclusively create the destination (failing the
request with an empty history if that fails), run the retry loop, and on a
successful fetch run verification, failing the request if the verifier says
`Failed`. -/
def downloadOne (env : FetchEnv) (retries : Nat) (d : Download) :
    Except DownloadError DownloadSummary × List Event :=
  if env.fileCreatable then
    let r := retryLoop env retries 1 d.urls [] []
    let evs := Event.createFile d.file_name :: r.2.2
    if r.2.1 then
      if env.verifyResult = Verification.Failed then
        (Except.error (DownloadError.verification
          { status := r.1, file_name := d.file_name, verified := env.verifyResult }), evs)
      else
        (Except.ok { status := r.1, file_name := d.file_name, verified := env.verifyResult }, evs)
    else
      (Except.error (DownloadError.download
        { status := r.1, file_name := d.file_name, verified := Verification.NotVerified }), evs)
  else
    (Except.error (DownloadError.download
      { status := [], file_name := d.file_name, verified := Verification.NotVerified }), [])

/-- `backend.rs::run`: `stream::iter(downloads).map(download).buffer_unordered(W)
.collect()` yields one result per request, in the nondeterministic completion
order `order` of the scheduler; each request runs against its own environment
`fenvs i`. Traces are concatenated in completion order. -/
def backendRun (fenvs : Nat → FetchEnv) (retries : Nat) (order : List Nat)
    (downloads : List Download) :
    List (Except DownloadError DownloadSummary) × List Event :=
  (order.map fun i => (downloadOne (fenvs i) retries (downloads.getD i ⟨[], ""⟩)).1,
   (order.map fun i => (downloadOne (fenvs i) retries (downloads.getD i ⟨[], ""⟩)).2).flatten)

/-- `Path::join` of the download folder and a relative destination, modelled
as path concatenation. -/
def joinPath (folder name : String) : String :=
  folder ++ "/" ++ name

/-- Sequential `HashSet::insert` over a request's URL list
(downloader.rs lines 31-37): fails (`none`) as soon as an element is already
known, otherwise returns the enlarged known set. -/
def insertAll (known : List String) : List String → Option (List String)
  | [] => some known
  | u :: rest => if u ∈ known then none else insertAll (u :: known) rest

/-- The per-request body of `downloader.rs::validate_downloads`, threading the
known-URL and known-path sets: reject empty URL lists, duplicate URLs, empty
destinations and duplicate destinations; resolve the destination against the
download folder. (The source's second emptiness test on `d.file_name` is kept,
although it is unreachable after the first.) -/
def validateGo (folder : String) : List Download → List String → List String →
    List Download → Except String (List Download)
  | [], _, _, acc => Except.ok acc.reverse
  | d :: rest, knownUrls, knownPaths, acc =>
    if d.urls.isEmpty then Except.error "No URL found to download."
    else
      match insertAll knownUrls d.urls with
      | none => Except.error "Download URL is used more than once."
      | some knownUrls' =>
        if d.file_name = "" then Except.error "No download file name was provided."
        else
          let full := joinPath folder d.file_name
          if d.file_name = "" then Except.error "Failed to get full download path."
          else if d.file_name ∈ knownPaths then
            Except.error "Download file name is used more than once."
          else
            validateGo folder rest knownUrls' (d.file_name :: knownPaths)
              ({ urls := d.urls, file_name := full } :: acc)

/-- `downloader.rs::validate_downloads`, starting from empty known sets. -/
def validate_downloads (folder : String) (downloads : List Download) :
    Except String (List Download) :=
  validateGo folder downloads [] [] []

/-- The batch environment: one fetch environment per submission index, and the
scheduler's completion order. -/
structure RunEnv where
  fetch : Nat → FetchEnv
  order : List Nat

/-- `downloader.rs::Downloader::download`: validate the batch — returning the
setup error with no side effects on failure — return an empty result for an
empty batch, and otherwise hand the validated list to `backend::run`. -/
def downloaderDownload (folder : String) (retries : Nat) (renv : RunEnv)
    (downloads : List Download) :
    Except String (List (Except DownloadError DownloadSummary)) × List Event :=
  match validate_downloads folder downloads with
  | Except.error e => (Except.error e, [])
  | Except.ok toProcess =>
    if toProcess.isEmpty then (Except.ok [], [])
    else
      let r := backendRun renv.fetch retries renv.order toProcess
      (Except.ok r.1, r.2)

/-- Whether the batch call was rejected with a setup error. -/
def isSetupError {α : Type} : Except String α → Bool
  | Except.error _ => true
  | Except.ok _ => false

/-- Destination path carried by a per-request outcome (for stating ordering
properties of the batch result). -/
def summaryName : Except DownloadError DownloadSummary → String
  | Except.ok s => s.file_name
  | Except.error (DownloadError.download s) => s.file_name
  | Except.error (DownloadError.verification s) => s.file_name

/-- `DownloadResult` of the earlier revision (`src/src/lib.rs` lines 139-146):
its verification field is a plain boolean. -/
structure DownloadResult where
  status : List (String × Nat)
  file_name : String
  verified : Bool
  deriving DecidableEq, Repr

/-- `DownloadResult::was_success` (`src/src/lib.rs` lines 151-153): the last
attempt's status — defaulting to `("", 0)` for an empty history — must equal
200 exactly, and the verified flag must be set. -/
def was_success (r : DownloadResult) : Bool :=
  ((r.status.getLast?.getD ("", 0)).2 == 200) && r.verified

/-- Environment for the mirror-narrowing evaluation: mirror `a` always answers
503, mirror `b` always answers 200; the RNG picks `a` first and would pick the
second eligible URL on every later retry. -/
def c1Env : FetchEnv where
  http := fun _ u => if u == "http://a/pkg" then some (503, []) else some (200, [])
  choose := fun r => if r == 1 then 0 else 1
  fileCreatable := true
  verifyResult := Verification.NotVerified

/-- Environment in which every attempt against every URL answers 503. -/
def all503Env : FetchEnv where
  http := fun _ _ => some (503, [])
  choose := fun _ => 0
  fileCreatable := true
  verifyResult := Verification.NotVerified

/-- C1: after a 503 from mirror `a`, the eligibility filter keeps exactly the
failed URL and discards the healthy mirror `b`; consequently a whole 5-retry
run only ever fetches `a` (all 503) although `b` would have answered 200.
Moreover a transport failure is folded into the 400 sentinel, which is not a
server error, so it does not narrow eligibility at all. This evaluates the
code at the failing input of the claim. -/
theorem c1_narrowing_keeps_failed_url :
    narrowUrls ["http://a/pkg", "http://b/pkg"] "http://a/pkg" = ["http://a/pkg"] ∧
    (downloadOne c1Env 5 ⟨["http://a/pkg", "http://b/pkg"], "pkg"⟩).1 =
      Except.error (DownloadError.download
        ⟨List.replicate 5 ("http://a/pkg", 503), "pkg", Verification.NotVerified⟩) ∧
    (download_url { c1Env with http := fun _ _ => none } 1 "http://a/pkg").status = 400 ∧
    isServerError (normStatus 400) = false := by
  refine ⟨rfl, ?_, rfl, rfl⟩
  rfl

/-- C2: with two mirrors that both answer 503 and `maxRetries = 5`, the loop
does not stop after 2 attempts: it records 5 attempts, all against the first
selected URL (the narrowing step keeps the failed mirror, so the eligible set
never empties). -/
theorem c2_two_mirror_503_runs_five_attempts :
    (downloadOne all503Env 5 ⟨["http://a/pkg", "http://b/pkg"], "pkg"⟩).1 =
      Except.error (DownloadError.download
        ⟨List.replicate 5 ("http://a/pkg", 503), "pkg", Verification.NotVerified⟩) ∧
    (List.replicate 5 ("http://a/pkg", 503)).length ≠ 2 := by
  exact ⟨rfl, by decide⟩

/-- C4 counterexample: a result whose last attempt has status 204 (a 2xx
success) and whose verified flag is set — so the claim's right-hand side
holds — is nevertheless not `was_success`, because the code compares against
200 exactly. -/
theorem c4_was_success_rejects_204 :
    was_success ⟨[("http://a/pkg", 204)], "pkg", true⟩ = false ∧
    isSuccess 204 = true := by
  decide

/-- C4 (amended): `was_success` holds iff the last recorded attempt's status
is exactly 200 (not the whole 2xx class) and the verified flag is true (in
this revision verification is a boolean, so a not-verified download does not
count as an overall success). -/
theorem c4_was_success_iff_200_and_verified (r : DownloadResult) :
    was_success r = true ↔
      (r.status.getLast?.getD ("", 0)).2 = 200 ∧ r.verified = true := by
  simp [was_success, Bool.and_eq_true, beq_iff_eq]

/-- C9: the empty batch validates trivially and returns an empty summary list
with an empty event trace — no error, no network or file I/O. -/
theorem c9_empty_batch_ok (folder : String) (retries : Nat) (renv : RunEnv) :
    downloaderDownload folder retries renv [] = (Except.ok [], []) :=
  rfl

lemma partialSums_chain (bs : List Nat) (c : Nat) :
    List.Chain (· ≤ ·) c (partialSums bs c) := by
  induction bs generalizing c with
  | nil => exact List.Chain.nil
  | cons b bs ih => exact List.Chain.cons (Nat.le_add_right c b) (ih (c + b))

lemma partialSums_chain' (bs : List Nat) (c : Nat) :
    List.Chain' (· ≤ ·) (partialSums bs c) := by
  cases bs with
  | nil => trivial
  | cons b bs => exact partialSums_chain bs (c + b)

lemma partialSums_getLastD (bs : List Nat) (c : Nat) :
    (partialSums bs c).getLastD c = c + bs.sum := by
  induction bs generalizing c with
  | nil => simp [partialSums]
  | cons b bs ih =>
    rw [partialSums, List.getLastD_cons, ih (c + b), List.sum_cons]
    omega

/-- C8: within one attempt, the running totals handed to `progress` are
non-decreasing, and the last one (0 when no chunk arrived) equals the number
of bytes handed to the destination writer during that attempt. -/
theorem c8_progress_monotone_final_is_total (env : FetchEnv) (attempt : Nat) (url : String) :
    List.Chain' (· ≤ ·) (download_url env attempt url).progressCalls ∧
    (download_url env attempt url).progressCalls.getLast?.getD 0 =
      (download_url env attempt url).bytesWritten := by
  unfold download_url
  cases h : env.http attempt url with
  | none => simp
  | some p =>
    obtain ⟨st, chunks⟩ := p
    refine ⟨partialSums_chain' chunks 0, ?_⟩
    have := partialSums_getLastD chunks 0
    rw [List.getLastD_eq_getLast?] at this
    simpa using this

/-- C6: if a request's destination cannot be exclusively created, that request
fails at once — empty attempt history, `NotVerified`, no events (so no network
activity and no file created) — and every sibling request, whose environment
is unchanged, produces exactly the same outcome as before. -/
theorem c6_file_creation_failure_is_local (fenvs fenvs' : Nat → FetchEnv) (retries : Nat)
    (ds : List Download) (j : Nat)
    (hj : (fenvs' j).fileCreatable = false)
    (hagree : ∀ i, i ≠ j → fenvs' i = fenvs i) :
    downloadOne (fenvs' j) retries (ds.getD j ⟨[], ""⟩) =
      (Except.error (DownloadError.download
        ⟨[], (ds.getD j ⟨[], ""⟩).file_name, Verification.NotVerified⟩), []) ∧
    ∀ i, i ≠ j →
      downloadOne (fenvs' i) retries (ds.getD i ⟨[], ""⟩) =
        downloadOne (fenvs i) retries (ds.getD i ⟨[], ""⟩) := by
  constructor
  · simp [downloadOne, hj]
  · intro i hi
    rw [hagree i hi]

/-- An environment whose destination file cannot be created exclusively. -/
def noCreateEnv : FetchEnv where
  http := fun _ _ => some (200, [])
  choose := fun _ => 0
  fileCreatable := false
  verifyResult := Verification.NotVerified

/-- Per-request environments for the C6 witness: request 1's file already
exists, the others are untouched. -/
def c6EnvsBlocked : Nat → FetchEnv :=
  fun i => if i = 1 then noCreateEnv else all503Env

/-- Download request `a` used in concrete scenarios. -/
def dlA : Download := ⟨["http://a/pkg"], "a"⟩

/-- Download request `b` used in concrete scenarios. -/
def dlB : Download := ⟨["http://b/pkg"], "b"⟩

theorem c6_file_creation_failure_is_local_witness :
    (c6EnvsBlocked 1).fileCreatable = false ∧
    (downloadOne (c6EnvsBlocked 1) 3 ([dlA, dlB].getD 1 ⟨[], ""⟩) =
      (Except.error (DownloadError.download
        ⟨[], ([dlA, dlB].getD 1 ⟨[], ""⟩).file_name, Verification.NotVerified⟩), []) ∧
    ∀ i, i ≠ 1 →
      downloadOne (c6EnvsBlocked i) 3 ([dlA, dlB].getD i ⟨[], ""⟩) =
        downloadOne ((fun _ => all503Env) i) 3 ([dlA, dlB].getD i ⟨[], ""⟩)) :=
  ⟨rfl, c6_file_creation_failure_is_local (fun _ => all503Env) c6EnvsBlocked 3 [dlA, dlB] 1
    rfl (fun i hi => by simp [c6EnvsBlocked, hi])⟩

lemma retryLoop_single_url_all_503 (env : FetchEnv) (url : String)
    (h : ∀ k, ∃ cs, env.http k url = some (503, cs)) :
    ∀ (n r : Nat) (acc : List (String × Nat)) (evs : List Event),
      retryLoop env n r [url] acc evs =
        (acc ++ List.replicate n (url, 503), false, evs ++ List.replicate n (Event.fetch url)) := by
  intro n
  induction n with
  | zero => intro r acc evs; simp [retryLoop]
  | succ n ih =>
    intro r acc evs
    obtain ⟨cs, hcs⟩ := h r
    rw [retryLoop]
    have hsel : select_url env r [url] = url := by
      simp [select_url, Nat.mod_one]
    rw [hsel]
    have hst : normStatus (download_url env r url).status = 503 := by
      simp [download_url, hcs, normStatus]
    rw [hst]
    have hnarrow : narrowUrls [url] url = [url] := by simp [narrowUrls]
    simp only [hnarrow, isServerError, isSuccess]
    norm_num
    rw [ih (r + 1) (acc ++ [(url, 503)]) (evs ++ [Event.fetch url])]
    simp [List.replicate_succ, List.append_assoc]

/-- C7: a single-mirror request whose every attempt answers 503, on a
creatable destination, ends with an attempt history of exactly `retries`
entries — all `(url, 503)` — the `Exhausted` error outcome, verification
`NotVerified`, and one fetch event per attempt after the file creation. -/
theorem c7_single_url_all_503_exhausts_retries (env : FetchEnv) (url name : String)
    (retries : Nat) (hcreate : env.fileCreatable = true)
    (h : ∀ k, ∃ cs, env.http k url = some (503, cs)) :
    downloadOne env retries ⟨[url], name⟩ =
      (Except.error (DownloadError.download
        ⟨List.replicate retries (url, 503), name, Verification.NotVerified⟩),
       Event.createFile name :: List.replicate retries (Event.fetch url)) := by
  simp [downloadOne, hcreate, retryLoop_single_url_all_503 env url h retries 1 [] []]

theorem c7_single_url_all_503_exhausts_retries_witness :
    (∀ k, ∃ cs, all503Env.http k "http://a/pkg" = some (503, cs)) ∧
    downloadOne all503Env 3 ⟨["http://a/pkg"], "pkg"⟩ =
      (Except.error (DownloadError.download
        ⟨List.replicate 3 ("http://a/pkg", 503), "pkg", Verification.NotVerified⟩),
       Event.createFile "pkg" :: List.replicate 3 (Event.fetch "http://a/pkg")) :=
  ⟨fun _ => ⟨[], rfl⟩,
   c7_single_url_all_503_exhausts_retries all503Env "http://a/pkg" "pkg" 3 rfl
     (fun _ => ⟨[], rfl⟩)⟩

/-- An environment in which every attempt immediately succeeds with 200. -/
def okEnv : FetchEnv where
  http := fun _ _ => some (200, [])
  choose := fun _ => 0
  fileCreatable := true
  verifyResult := Verification.NotVerified

/-- C3 counterexample: with both requests succeeding and request 1 completing
before request 0, `buffer_unordered`'s collected output is in completion
order `[b, a]`, not in the submission order `[a, b]`. -/
theorem c3_completion_order_breaks_position :
    ((backendRun (fun _ => okEnv) 1 [1, 0] [dlA, dlB]).1.map summaryName) = ["b", "a"] ∧
    ["b", "a"] ≠ [dlA.file_name, dlB.file_name] := by
  refine ⟨rfl, by decide⟩

/-- C3 (amended): for every completion order that is a permutation of the
batch's positions, the collected output is the submission-order result list
permuted by completion order — one result per request, but indexable against
the input batch only when completion order happens to equal submission
order. -/
theorem c3_output_is_completion_order_permutation (fenvs : Nat → FetchEnv) (retries : Nat)
    (order : List Nat) (ds : List Download)
    (h : order.Perm (List.range ds.length)) :
    (backendRun fenvs retries order ds).1.Perm
      ((List.range ds.length).map fun i =>
        (downloadOne (fenvs i) retries (ds.getD i ⟨[], ""⟩)).1) :=
  h.map _

theorem c3_output_is_completion_order_permutation_witness :
    ([1, 0] : List Nat).Perm (List.range [dlA, dlB].length) ∧
    (backendRun (fun _ => okEnv) 1 [1, 0] [dlA, dlB]).1.Perm
      ((List.range [dlA, dlB].length).map fun i =>
        (downloadOne ((fun _ => okEnv) i) 1 ([dlA, dlB].getD i ⟨[], ""⟩)).1) :=
  ⟨by decide,
   c3_output_is_completion_order_permutation (fun _ => okEnv) 1 [1, 0] [dlA, dlB] (by decide)⟩

lemma insertAll_ok :
    ∀ (us ku ku' : List String), insertAll ku us = some ku' →
      us.Nodup ∧ (∀ u ∈ us, u ∉ ku) ∧ ∀ x, x ∈ ku' ↔ x ∈ ku ∨ x ∈ us := by
  intro us
  induction us with
  | nil =>
    intro ku ku' h
    simp only [insertAll, Option.some.injEq] at h
    subst h
    simp
  | cons u rest ih =>
    intro ku ku' h
    simp only [insertAll] at h
    by_cases hu : u ∈ ku
    · simp [hu] at h
    · rw [if_neg hu] at h
      obtain ⟨hnd, hnotin, hmem⟩ := ih (u :: ku) ku' h
      refine ⟨?_, ?_, ?_⟩
      · exact List.nodup_cons.mpr
          ⟨fun hur => (hnotin u hur) (List.mem_cons_self u ku), hnd⟩
      · intro v hv
        rcases List.mem_cons.mp hv with rfl | hv'
        · exact hu
        · exact fun hvku => (hnotin v hv') (List.mem_cons_of_mem _ hvku)
      · intro x
        rw [hmem x, List.mem_cons, List.mem_cons]
        tauto

lemma validateGo_ok_inv (folder : String) :
    ∀ (ds : List Download) (ku kp : List String) (acc r : List Download),
      validateGo folder ds ku kp acc = Except.ok r →
        (∀ d ∈ ds, d.urls ≠ []) ∧
        (∀ d ∈ ds, d.urls.Nodup) ∧
        (∀ d ∈ ds, d.file_name ≠ "") ∧
        ((ds.map Download.urls).flatten).Nodup ∧
        (∀ u ∈ (ds.map Download.urls).flatten, u ∉ ku) ∧
        (ds.map Download.file_name).Nodup ∧
        (∀ p ∈ ds.map Download.file_name, p ∉ kp) := by
  intro ds
  induction ds with
  | nil => intro ku kp acc r _; simp
  | cons d rest ih =>
    intro ku kp acc r h
    rw [validateGo] at h
    by_cases hemp : d.urls.isEmpty
    · rw [if_pos hemp] at h; exact absurd h (by simp)
    rw [if_neg hemp] at h
    cases hins : insertAll ku d.urls with
    | none => rw [hins] at h; exact absurd h (by simp)
    | some ku2 =>
      rw [hins] at h
      dsimp only [] at h
      by_cases hname : d.file_name = ""
      · rw [if_pos hname] at h; exact absurd h (by simp)
      rw [if_neg hname, if_neg hname] at h
      by_cases hdup : d.file_name ∈ kp
      · rw [if_pos hdup] at h; exact absurd h (by simp)
      rw [if_neg hdup] at h
      obtain ⟨ih1, ih2, ih3, ih4, ih5, ih6, ih7⟩ :=
        ih ku2 (d.file_name :: kp) _ r h
      obtain ⟨hdnd, hdku, hku2⟩ := insertAll_ok d.urls ku ku2 hins
      have hdne : d.urls ≠ [] := fun he => hemp (by simp [he])
      refine ⟨?_, ?_, ?_, ?_, ?_, ?_, ?_⟩
      · intro d' hd'
        rcases List.mem_cons.mp hd' with rfl | hd'
        · exact hdne
        · exact ih1 d' hd'
      · intro d' hd'
        rcases List.mem_cons.mp hd' with rfl | hd'
        · exact hdnd
        · exact ih2 d' hd'
      · intro d' hd'
        rcases List.mem_cons.mp hd' with rfl | hd'
        · exact hname
        · exact ih3 d' hd'
      · rw [List.map_cons, List.flatten_cons, List.nodup_append]
        refine ⟨hdnd, ih4, ?_⟩
        intro x hx hx'
        exact ih5 x hx' ((hku2 x).mpr (Or.inr hx))
      · intro u hu
        rw [List.map_cons, List.flatten_cons, List.mem_append] at hu
        rcases hu with hu | hu
        · exact hdku u hu
        · exact fun hk => ih5 u hu ((hku2 u).mpr (Or.inl hk))
      · rw [List.map_cons, List.nodup_cons]
        exact ⟨fun hmem => ih7 _ hmem (List.mem_cons_self _ _), ih6⟩
      · intro p hp
        rw [List.map_cons, List.mem_cons] at hp
        rcases hp with rfl | hp
        · exact hdup
        · exact fun hk => ih7 p hp (List.mem_cons_of_mem _ hk)

/-- C5: a batch containing an empty URL list, a URL occurring twice, an empty
destination, or a destination occurring twice is rejected as a setup error by
validation, with an empty event trace: no file is created and no fetch is
attempted for any request of the batch. -/
theorem c5_invalid_batch_rejected_before_io (folder : String) (retries : Nat)
    (renv : RunEnv) (ds : List Download)
    (h : (∃ d ∈ ds, d.urls = []) ∨
         ¬ ((ds.map Download.urls).flatten).Nodup ∨
         (∃ d ∈ ds, d.file_name = "") ∨
         ¬ (ds.map Download.file_name).Nodup) :
    isSetupError (downloaderDownload folder retries renv ds).1 = true ∧
    (downloaderDownload folder retries renv ds).2 = [] := by
  cases hv : validate_downloads folder ds with
  | error e => simp [downloaderDownload, hv, isSetupError]
  | ok r =>
    exfalso
    unfold validate_downloads at hv
    obtain ⟨h1, _, h3, h4, _, h6, _⟩ := validateGo_ok_inv folder ds [] [] [] r hv
    rcases h with ⟨d, hd, hde⟩ | hnd | ⟨d, hd, hde⟩ | hnd
    · exact h1 d hd hde
    · exact hnd h4
    · exact h3 d hd hde
    · exact hnd h6

/-- A download with no URL at all, rejected by validation. -/
def dlNoUrl : Download := ⟨[], "x"⟩

theorem c5_invalid_batch_rejected_before_io_witness :
    ((∃ d ∈ [dlNoUrl], d.urls = []) ∨
      ¬ (([dlNoUrl].map Download.urls).flatten).Nodup ∨
      (∃ d ∈ [dlNoUrl], d.file_name = "") ∨
      ¬ ([dlNoUrl].map Download.file_name).Nodup) ∧
    (isSetupError (downloaderDownload "dl" 3 ⟨fun _ => okEnv, [0]⟩ [dlNoUrl]).1 = true ∧
     (downloaderDownload "dl" 3 ⟨fun _ => okEnv, [0]⟩ [dlNoUrl]).2 = []) :=
  ⟨Or.inl ⟨dlNoUrl, List.mem_cons_self _ _, rfl⟩,
   c5_invalid_batch_rejected_before_io "dl" 3 ⟨fun _ => okEnv, [0]⟩ [dlNoUrl]
     (Or.inl ⟨dlNoUrl, List.mem_cons_self _ _, rfl⟩)⟩

/-- C10: a batch containing one request whose own mirror list repeats a URL is
rejected as a setup error — the known-URL set is threaded through a single
request's list, so within-request duplicates are caught as well. -/
theorem c10_within_request_duplicate_url_rejected (folder : String) (retries : Nat)
    (renv : RunEnv) (ds : List Download)
    (h : ∃ d ∈ ds, ¬ d.urls.Nodup) :
    isSetupError (downloaderDownload folder retries renv ds).1 = true := by
  cases hv : validate_downloads folder ds with
  | error e => simp [downloaderDownload, hv, isSetupError]
  | ok r =>
    exfalso
    obtain ⟨d, hd, hnd⟩ := h
    unfold validate_downloads at hv
    obtain ⟨_, h2, _⟩ := validateGo_ok_inv folder ds [] [] [] r hv
    exact hnd (h2 d hd)

/-- A download repeating the same URL in its own mirror list. -/
def dlTwice : Download := ⟨["http://a/pkg", "http://a/pkg"], "x"⟩

theorem c10_within_request_duplicate_url_rejected_witness :
    (∃ d ∈ [dlTwice], ¬ d.urls.Nodup) ∧
    isSetupError (downloaderDownload "dl" 3 ⟨fun _ => okEnv, [0]⟩ [dlTwice]).1 = true :=
  ⟨⟨dlTwice, List.mem_cons_self _ _, by decide⟩,
   c10_within_request_duplicate_url_rejected "dl" 3 ⟨fun _ => okEnv, [0]⟩ [dlTwice]
     ⟨dlTwice, List.mem_cons_self _ _, by decide⟩⟩
